import Mathlib

/-!
Shallow embedding of `src/upload_apk.py`: a command-line script that uploads
one local file to an S3 bucket and reports success or failure via its exit
code.  The external world (filesystem, boto3 client construction, the
`upload_file` call, environment variables) is modelled by an `Env` record;
the script's observable behaviour is a result (`Except String Bool`, where
`Except.error` models an uncaught Python exception propagating out of
`upload_to_s3`) together with the accumulated `Effects` (printed lines,
clients constructed, put requests issued to the storage client).
-/

namespace UploadApk

/-- Python `os.path.basename` on POSIX paths: everything after the last
slash (`p[p.rfind(sep)+1:]` in `posixpath.basename`). -/
def basename (p : String) : String :=
  String.mk (List.reverse (List.takeWhile (fun c => c != '/') (List.reverse p.data)))

/-- Does `pat` occur at the head of the character list? -/
def leadsWith : List Char → List Char → Bool
  | _, [] => true
  | [], _ :: _ => false
  | c :: cs, x :: xs => x == c && leadsWith cs xs

/-- Does `pat` occur somewhere inside the character list? -/
def containsSub : List Char → List Char → Bool
  | [], pat => pat.isEmpty
  | c :: cs, pat => leadsWith (c :: cs) pat || containsSub cs pat

/-- A printed line mentions `pat` when `pat` occurs in it as a substring. -/
def mentions (line pat : String) : Bool :=
  containsSub line.data pat.data

/-- What the boto3 `upload_file` call does when invoked: it returns normally
or raises one of the exception classes distinguished at lines 46-59 of
`upload_apk.py`. -/
inductive PutOutcome where
  | success
  | raiseFileNotFound
  | raiseNoCredentials
  | raiseClientError (detail : String)
  | raiseOther (detail : String)
deriving DecidableEq

/-- One `upload_file` request as issued at lines 36-41 of `upload_apk.py`:
local path, bucket, object key and the `ContentType` extra argument. -/
structure PutRequest where
  filePath : String
  bucket : String
  key : String
  contentType : String
deriving DecidableEq

/-- The ambient world the script interacts with: `os.path.isfile`, whether
`boto3.client` construction raises (and with what message), what the
`upload_file` call does, and `os.environ.get`. -/
structure Env where
  isFile : String → Bool
  clientConstruct : Option String
  putOutcome : PutOutcome
  getenv : String → Option String

/-- Observable side effects: printed lines in order, number of storage
clients successfully constructed, and the put requests issued. -/
structure Effects where
  output : List String
  clientsConstructed : Nat
  putCalls : List PutRequest
deriving DecidableEq

/-- The fixed `ContentType` extra argument from lines 32-34. -/
def contentTypeAPK : String := "application/vnd.android.package-archive"

/-- `upload_to_s3(file_path, bucket_name, object_name=None)`, lines 7-59 of
`upload_apk.py`.  `Except.error msg` models an exception escaping the
function (only possible from `boto3.client` at line 24, which sits outside
the try block); `Except.ok b` models `return b`. -/
def upload_to_s3 (env : Env) (file_path bucket_name : String)
    (object_name : Option String) : Except String Bool × Effects :=
  let object_name :=
    match object_name with
    | none => basename file_path
    | some k => k
  if env.isFile file_path = false then
    (Except.ok false,
      { output := ["Error: File not found at '" ++ file_path ++ "'"],
        clientsConstructed := 0, putCalls := [] })
  else
    match env.clientConstruct with
    | some exc =>
        (Except.error exc,
          { output := [], clientsConstructed := 0, putCalls := [] })
    | none =>
        let startMsg := "Starting upload of '" ++ file_path ++ "' to bucket '"
          ++ bucket_name ++ "'..."
        let req : PutRequest :=
          { filePath := file_path, bucket := bucket_name, key := object_name,
            contentType := contentTypeAPK }
        match env.putOutcome with
        | PutOutcome.success =>
            (Except.ok true,
              { output := [startMsg,
                  "Success! '" ++ object_name ++ "' uploaded to '" ++ bucket_name ++ "'."],
                clientsConstructed := 1, putCalls := [req] })
        | PutOutcome.raiseFileNotFound =>
            (Except.ok false,
              { output := [startMsg, "Error: The file was not found."],
                clientsConstructed := 1, putCalls := [req] })
        | PutOutcome.raiseNoCredentials =>
            (Except.ok false,
              { output := [startMsg, "Error: AWS credentials not found.",
                  "Please ensure AWS_ACCESS_KEY_ID and AWS_SECRET_ACCESS_KEY environment variables are set."],
                clientsConstructed := 1, putCalls := [req] })
        | PutOutcome.raiseClientError detail =>
            (Except.ok false,
              { output := [startMsg, "AWS Error: " ++ detail],
                clientsConstructed := 1, putCalls := [req] })
        | PutOutcome.raiseOther detail =>
            (Except.ok false,
              { output := [startMsg, "Unexpected error: " ++ detail],
                clientsConstructed := 1, putCalls := [req] })

/-- The parsed command-line arguments: positional `bucket` and `filepath`,
optional `--key` (default `None`), lines 62-67. -/
structure Args where
  bucket : String
  filepath : String
  key : Option String

/-- Python truthiness of `os.environ.get(v)`: `None` and `""` are falsy. -/
def truthy (v : Option String) : Bool :=
  match v with
  | none => false
  | some s => !(s == "")

/-- The two warning lines printed at lines 72-73 when a credential variable
is not set. -/
def warnLines : List String :=
  ["Warning: AWS_ACCESS_KEY_ID or AWS_SECRET_ACCESS_KEY not explicitly set in environment.",
   "Attempting to proceed using other credential methods (config files, IAM roles)..."]

/-- `main()`, lines 61-78 of `upload_apk.py` (after argument parsing): the
credential presence check, the call to `upload_to_s3`, and `sys.exit(1)` on
failure; falling off the end of the script exits with code 0.  An exception
escaping `upload_to_s3` escapes `main` too. -/
def main (env : Env) (args : Args) : Except String Nat × Effects :=
  let warnings :=
    if !truthy (env.getenv "AWS_ACCESS_KEY_ID")
        || !truthy (env.getenv "AWS_SECRET_ACCESS_KEY") then warnLines
    else []
  let r := upload_to_s3 env args.filepath args.bucket args.key
  let eff : Effects :=
    { output := warnings ++ r.2.output,
      clientsConstructed := r.2.clientsConstructed,
      putCalls := r.2.putCalls }
  match r.1 with
  | Except.error e => (Except.error e, eff)
  | Except.ok success => if success then (Except.ok 0, eff) else (Except.ok 1, eff)

/-- A concrete environment for witnesses: every path exists iff `present`,
client construction raises iff `construct` is `some`, the put call behaves
as `put`, and no environment variable is set. -/
def testEnv (present : Bool) (construct : Option String) (put : PutOutcome) : Env :=
  { isFile := fun _ => present, clientConstruct := construct,
    putOutcome := put, getenv := fun _ => none }

/-- The diagnostic lines each catch branch of the try block (lines 46-59 of
`upload_apk.py`) prints before returning `false`; empty for the success
branch, which prints the success line and returns `true`. -/
def tryErrorLines : PutOutcome → List String
  | PutOutcome.success => []
  | PutOutcome.raiseFileNotFound => ["Error: The file was not found."]
  | PutOutcome.raiseNoCredentials =>
      ["Error: AWS credentials not found.",
       "Please ensure AWS_ACCESS_KEY_ID and AWS_SECRET_ACCESS_KEY environment variables are set."]
  | PutOutcome.raiseClientError detail => ["AWS Error: " ++ detail]
  | PutOutcome.raiseOther detail => ["Unexpected error: " ++ detail]

/-- C1: whenever `sourcePath` does not resolve to an existing regular file,
`upload_to_s3` prints a diagnostic and returns `false`, constructs no
storage client and issues no put request. -/
theorem C1_missing_file_no_network (env : Env) (fp bn : String) (key : Option String)
    (h : env.isFile fp = false) :
    (upload_to_s3 env fp bn key).1 = Except.ok false ∧
    (upload_to_s3 env fp bn key).2.output = ["Error: File not found at '" ++ fp ++ "'"] ∧
    (upload_to_s3 env fp bn key).2.clientsConstructed = 0 ∧
    (upload_to_s3 env fp bn key).2.putCalls = [] := by
  simp [upload_to_s3, h]

/-- C1 witness: at a concrete absent file the theorem applies. -/
theorem C1_missing_file_no_network_witness :
    (upload_to_s3 (testEnv false none PutOutcome.success) "/tmp/missing.apk" "my-bucket" none).1
        = Except.ok false ∧
    (upload_to_s3 (testEnv false none PutOutcome.success) "/tmp/missing.apk" "my-bucket" none).2.output
        = ["Error: File not found at '" ++ "/tmp/missing.apk" ++ "'"] ∧
    (upload_to_s3 (testEnv false none PutOutcome.success) "/tmp/missing.apk" "my-bucket" none).2.clientsConstructed
        = 0 ∧
    (upload_to_s3 (testEnv false none PutOutcome.success) "/tmp/missing.apk" "my-bucket" none).2.putCalls
        = [] :=
  C1_missing_file_no_network (testEnv false none PutOutcome.success)
    "/tmp/missing.apk" "my-bucket" none rfl

/-- C2: when no object key is supplied and the file exists (and the client
constructs), the single put request issued carries as key the basename of
the source path, whatever the put call then does. -/
theorem C2_default_key_is_basename (env : Env) (fp bn : String)
    (hf : env.isFile fp = true) (hc : env.clientConstruct = none) :
    (upload_to_s3 env fp bn none).2.putCalls.map PutRequest.key = [basename fp] := by
  cases hp : env.putOutcome <;> simp [upload_to_s3, hf, hc, hp]

/-- C2 witness: with no key, "/tmp/app.apk" is stored under "app.apk". -/
theorem C2_default_key_is_basename_witness :
    (upload_to_s3 (testEnv true none PutOutcome.success) "/tmp/app.apk" "my-bucket" none).2.putCalls.map
      PutRequest.key = [basename "/tmp/app.apk"] ∧ basename "/tmp/app.apk" = "app.apk" :=
  ⟨C2_default_key_is_basename (testEnv true none PutOutcome.success) "/tmp/app.apk" "my-bucket"
    rfl rfl, by decide⟩

/-- C3: when an object key is supplied and the file exists (and the client
constructs), the single put request issued carries exactly that key, with
no derivation from the source path. -/
theorem C3_explicit_key_passed_through (env : Env) (fp bn k : String)
    (hf : env.isFile fp = true) (hc : env.clientConstruct = none) :
    (upload_to_s3 env fp bn (some k)).2.putCalls.map PutRequest.key = [k] := by
  cases hp : env.putOutcome <;> simp [upload_to_s3, hf, hc, hp]

/-- C3 witness: an explicit key "releases/v2/app.apk" is used unchanged. -/
theorem C3_explicit_key_passed_through_witness :
    (upload_to_s3 (testEnv true none PutOutcome.success) "/tmp/app.apk" "my-bucket"
      (some "releases/v2/app.apk")).2.putCalls.map PutRequest.key = ["releases/v2/app.apk"] :=
  C3_explicit_key_passed_through (testEnv true none PutOutcome.success) "/tmp/app.apk"
    "my-bucket" "releases/v2/app.apk" rfl rfl

/-- C4: when the file exists (and the client constructs), exactly one put
request is issued, carrying the unchanged source path and bucket name, the
resolved key, and the fixed content type
"application/vnd.android.package-archive". -/
theorem C4_single_put_request_shape (env : Env) (fp bn : String) (key : Option String)
    (hf : env.isFile fp = true) (hc : env.clientConstruct = none) :
    (upload_to_s3 env fp bn key).2.putCalls =
      [{ filePath := fp, bucket := bn,
         key := match key with | none => basename fp | some k => k,
         contentType := "application/vnd.android.package-archive" }] := by
  cases hp : env.putOutcome <;>
    cases key <;>
      simp [upload_to_s3, contentTypeAPK, hf, hc, hp]

/-- C4 witness: the end-to-end scenario with bucket "my-bucket" and file
"/tmp/app.apk" issues exactly one request with key "app.apk" and the fixed
APK content type. -/
theorem C4_single_put_request_shape_witness :
    (upload_to_s3 (testEnv true none PutOutcome.success) "/tmp/app.apk" "my-bucket" none).2.putCalls =
      [{ filePath := "/tmp/app.apk", bucket := "my-bucket",
         key := basename "/tmp/app.apk",
         contentType := "application/vnd.android.package-archive" }] :=
  C4_single_put_request_shape (testEnv true none PutOutcome.success) "/tmp/app.apk"
    "my-bucket" none rfl rfl

/-- C5 counterexample: `boto3.client` at line 24 sits outside the try block,
so an exception raised while constructing the storage client (for example
botocore's NoRegionError) propagates out of `upload_to_s3` instead of being
converted to a printed message and `false`. -/
theorem C5_counterexample_construct_raises :
    (upload_to_s3
        (testEnv true (some "NoRegionError: You must specify a region.") PutOutcome.success)
        "/tmp/app.apk" "my-bucket" none).1
      = Except.error "NoRegionError: You must specify a region." := rfl

/-- C5 (amended): provided storage-client construction does not raise,
`upload_to_s3` never propagates an exception, and every error raised inside
the try block (every put outcome other than success, on an existing file)
is caught at the single call site, converted to the branch's printed
diagnostic lines, and reduced to the boolean return value `false`. -/
theorem C5_try_errors_printed_and_false (env : Env) (fp bn : String)
    (key : Option String) (hc : env.clientConstruct = none) :
    (∃ b : Bool, (upload_to_s3 env fp bn key).1 = Except.ok b) ∧
    (env.isFile fp = true → env.putOutcome ≠ PutOutcome.success →
      (upload_to_s3 env fp bn key).1 = Except.ok false ∧
      (upload_to_s3 env fp bn key).2.output =
        ("Starting upload of '" ++ fp ++ "' to bucket '" ++ bn ++ "'...") ::
          tryErrorLines env.putOutcome ∧
      tryErrorLines env.putOutcome ≠ []) := by
  constructor
  · cases hf : env.isFile fp <;> cases hp : env.putOutcome <;>
      simp [upload_to_s3, hf, hc, hp]
  · intro hf hp
    cases hpo : env.putOutcome with
    | success => exact absurd hpo hp
    | raiseFileNotFound => simp [upload_to_s3, tryErrorLines, hf, hc, hpo]
    | raiseNoCredentials => simp [upload_to_s3, tryErrorLines, hf, hc, hpo]
    | raiseClientError detail => simp [upload_to_s3, tryErrorLines, hf, hc, hpo]
    | raiseOther detail => simp [upload_to_s3, tryErrorLines, hf, hc, hpo]

/-- C5 witness: a put call raising an unexpected exception on an existing
file yields `false` and prints the start line followed by the branch's
diagnostic, which is nonempty. -/
theorem C5_try_errors_printed_and_false_witness :
    (upload_to_s3 (testEnv true none (PutOutcome.raiseOther "boom")) "/tmp/app.apk"
        "my-bucket" none).1 = Except.ok false ∧
    (upload_to_s3 (testEnv true none (PutOutcome.raiseOther "boom")) "/tmp/app.apk"
        "my-bucket" none).2.output =
      ("Starting upload of '" ++ "/tmp/app.apk" ++ "' to bucket '" ++ "my-bucket" ++ "'...") ::
        tryErrorLines (testEnv true none (PutOutcome.raiseOther "boom")).putOutcome ∧
    tryErrorLines (testEnv true none (PutOutcome.raiseOther "boom")).putOutcome ≠ [] :=
  (C5_try_errors_printed_and_false (testEnv true none (PutOutcome.raiseOther "boom"))
    "/tmp/app.apk" "my-bucket" none rfl).2 rfl (by decide)

/-- C6: when `upload_to_s3` returns a boolean, the process exits with code 0
on `true` and code 1 on `false`. -/
theorem C6_exit_code_matches_result (env : Env) (args : Args) (b : Bool)
    (h : (upload_to_s3 env args.filepath args.bucket args.key).1 = Except.ok b) :
    (main env args).1 = Except.ok (if b then 0 else 1) := by
  cases b <;> simp [main, h]

/-- C6 witness: the successful end-to-end scenario exits with code 0. -/
theorem C6_exit_code_matches_result_witness :
    (main (testEnv true none PutOutcome.success) ⟨"my-bucket", "/tmp/app.apk", none⟩).1
      = Except.ok 0 :=
  C6_exit_code_matches_result (testEnv true none PutOutcome.success)
    ⟨"my-bucket", "/tmp/app.apk", none⟩ true rfl

/-- C7: when the put call raises the credentials-not-found condition,
`upload_to_s3` returns `false` and some printed line mentions both
AWS_ACCESS_KEY_ID and AWS_SECRET_ACCESS_KEY. -/
theorem C7_no_credentials_names_both_vars (env : Env) (fp bn : String)
    (key : Option String) (hf : env.isFile fp = true) (hc : env.clientConstruct = none)
    (hp : env.putOutcome = PutOutcome.raiseNoCredentials) :
    (upload_to_s3 env fp bn key).1 = Except.ok false ∧
    ∃ line ∈ (upload_to_s3 env fp bn key).2.output,
      mentions line "AWS_ACCESS_KEY_ID" = true ∧
      mentions line "AWS_SECRET_ACCESS_KEY" = true := by
  refine ⟨by simp [upload_to_s3, hf, hc, hp], ?_⟩
  refine ⟨"Please ensure AWS_ACCESS_KEY_ID and AWS_SECRET_ACCESS_KEY environment variables are set.",
    ?_, by decide, by decide⟩
  simp [upload_to_s3, hf, hc, hp]

/-- C7 witness: at a concrete input the credentials diagnostic names both
variables and the result is `false`. -/
theorem C7_no_credentials_names_both_vars_witness :
    (upload_to_s3 (testEnv true none PutOutcome.raiseNoCredentials) "/tmp/app.apk"
        "my-bucket" none).1 = Except.ok false ∧
    ∃ line ∈ (upload_to_s3 (testEnv true none PutOutcome.raiseNoCredentials) "/tmp/app.apk"
        "my-bucket" none).2.output,
      mentions line "AWS_ACCESS_KEY_ID" = true ∧
      mentions line "AWS_SECRET_ACCESS_KEY" = true :=
  C7_no_credentials_names_both_vars (testEnv true none PutOutcome.raiseNoCredentials)
    "/tmp/app.apk" "my-bucket" none rfl rfl rfl

/-- C8: when the put call raises a service-level rejection (ClientError)
with some detail, `upload_to_s3` returns `false` and prints the detail
verbatim in a line of the form "AWS Error: detail". -/
theorem C8_client_error_detail_printed (env : Env) (fp bn : String)
    (key : Option String) (detail : String) (hf : env.isFile fp = true)
    (hc : env.clientConstruct = none)
    (hp : env.putOutcome = PutOutcome.raiseClientError detail) :
    (upload_to_s3 env fp bn key).1 = Except.ok false ∧
    ("AWS Error: " ++ detail) ∈ (upload_to_s3 env fp bn key).2.output := by
  constructor <;> simp [upload_to_s3, hf, hc, hp]

/-- C8 witness: a concrete rejection detail is surfaced verbatim. -/
theorem C8_client_error_detail_printed_witness :
    (upload_to_s3 (testEnv true none (PutOutcome.raiseClientError "403 Forbidden"))
        "/tmp/app.apk" "my-bucket" none).1 = Except.ok false ∧
    ("AWS Error: " ++ "403 Forbidden") ∈
      (upload_to_s3 (testEnv true none (PutOutcome.raiseClientError "403 Forbidden"))
        "/tmp/app.apk" "my-bucket" none).2.output :=
  C8_client_error_detail_printed (testEnv true none (PutOutcome.raiseClientError "403 Forbidden"))
    "/tmp/app.apk" "my-bucket" none "403 Forbidden" rfl rfl rfl

/-- C9: when either credential environment variable is unset (falsy), `main`
prints the two warning lines but still proceeds: the put requests are
exactly those of the upload attempt, and the exit code is unaffected by the
environment variables (replacing `getenv` arbitrarily leaves it unchanged). -/
theorem C9_credential_warning_nonfatal (env : Env) (args : Args)
    (h : truthy (env.getenv "AWS_ACCESS_KEY_ID") = false ∨
         truthy (env.getenv "AWS_SECRET_ACCESS_KEY") = false) :
    (main env args).2.output =
      warnLines ++ (upload_to_s3 env args.filepath args.bucket args.key).2.output ∧
    (main env args).2.putCalls =
      (upload_to_s3 env args.filepath args.bucket args.key).2.putCalls ∧
    ∀ g : String → Option String,
      (main { env with getenv := g } args).1 = (main env args).1 := by
  refine ⟨?_, ?_, ?_⟩
  · rcases h with h | h <;>
      rcases hr : (upload_to_s3 env args.filepath args.bucket args.key).1 with e | b <;>
        [skip; cases b; skip; cases b] <;> simp [main, h, hr]
  · rcases h with h | h <;>
      rcases hr : (upload_to_s3 env args.filepath args.bucket args.key).1 with e | b <;>
        [skip; cases b; skip; cases b] <;> simp [main, h, hr]
  · intro g
    have hu : upload_to_s3 { env with getenv := g } args.filepath args.bucket args.key =
        upload_to_s3 env args.filepath args.bucket args.key := rfl
    rcases hr : (upload_to_s3 env args.filepath args.bucket args.key).1 with e | b <;>
      [skip; cases b] <;> simp [main, hu, hr]

/-- C9 witness: with no environment variables set, the warning lines precede
the upload output, the upload is still attempted, and the exit code is
independent of the environment. -/
theorem C9_credential_warning_nonfatal_witness :
    (main (testEnv true none PutOutcome.success) ⟨"my-bucket", "/tmp/app.apk", none⟩).2.output =
      warnLines ++ (upload_to_s3 (testEnv true none PutOutcome.success) "/tmp/app.apk"
        "my-bucket" none).2.output ∧
    (main (testEnv true none PutOutcome.success) ⟨"my-bucket", "/tmp/app.apk", none⟩).2.putCalls =
      (upload_to_s3 (testEnv true none PutOutcome.success) "/tmp/app.apk"
        "my-bucket" none).2.putCalls ∧
    ∀ g : String → Option String,
      (main { testEnv true none PutOutcome.success with getenv := g }
          ⟨"my-bucket", "/tmp/app.apk", none⟩).1 =
        (main (testEnv true none PutOutcome.success) ⟨"my-bucket", "/tmp/app.apk", none⟩).1 :=
  C9_credential_warning_nonfatal (testEnv true none PutOutcome.success)
    ⟨"my-bucket", "/tmp/app.apk", none⟩ (Or.inl rfl)

/-- C10: only a missing (`None`) object key triggers derivation from the
source path: an explicitly supplied empty-string key reaches the put
request unchanged, not replaced by the basename. -/
theorem C10_empty_key_passed_through (env : Env) (args : Args)
    (hk : args.key = some "") (hf : env.isFile args.filepath = true)
    (hc : env.clientConstruct = none) :
    (main env args).2.putCalls.map PutRequest.key = [""] := by
  cases hp : env.putOutcome <;>
    rcases hw : (!truthy (env.getenv "AWS_ACCESS_KEY_ID")
        || !truthy (env.getenv "AWS_SECRET_ACCESS_KEY")) with _ | _ <;>
      simp [main, upload_to_s3, hk, hf, hc, hp, hw]

/-- C10 witness: with key "" and source "/tmp/app.apk" (whose basename
"app.apk" is nonempty) the put request's key is the empty string. -/
theorem C10_empty_key_passed_through_witness :
    (main (testEnv true none PutOutcome.success)
        ⟨"my-bucket", "/tmp/app.apk", some ""⟩).2.putCalls.map PutRequest.key = [""] ∧
    basename "/tmp/app.apk" ≠ "" :=
  ⟨C10_empty_key_passed_through (testEnv true none PutOutcome.success)
      ⟨"my-bucket", "/tmp/app.apk", some ""⟩ rfl rfl rfl,
    by decide⟩

end UploadApk
